import Mathlib

/-!
Verification of the directory-change monitor (the `monitoring` class of `src/fileproc.py`)

This file gives a shallow embedding of the `monitoring` class of
`src/fileproc.py` (together with the parts of `misc.get_config` it calls)
and proves or refutes the frozen claims about it.

Modelling conventions:

* Machine state that the Python code reads or writes through the OS is
  collected in a `World` structure: a map from file names to file contents
  (a file is a list of text lines; `none` means the file does not exist),
  a directory predicate, a directory-listing function for the monitored
  path, the value of the `CONFIGFILE` environment variable, the parsed
  contents of JSON configuration files (abstracted as a key-value lookup
  per file, since JSON parsing is glue code outside the monitor core),
  the current wall-clock time, the system temporary directory and the name
  `tempfile` would pick for the next temporary file, and the audit log.
* Python exceptions become an error type `PyError`; a Python method that
  can raise returns `Except PyError _`.
* `datetime.datetime` values are modelled by a `DateTime` record of
  numeric fields (with microseconds, since file modification times have
  sub-second precision while stored timestamps are truncated to seconds).
  `strptime`/`strftime` with the fixed format `%Y-%m-%d %H:%M:%S` are
  modelled character by character, including range validation
  (month 1..12, day valid for the month and leap year, hour 0..23,
  minute/second 0..59, exactly four year digits, full-string match).
* The `csv` module's `DictReader`/`DictWriter` are used by the code with
  their *default* comma delimiter (never with `ref_delim`); they are
  modelled by comma-splitting and comma-joining of lines.  CSV quoting is
  not modelled; theorems that quantify over store contents therefore carry
  hypotheses that fields are free of commas (well-formedness of the store),
  which also makes quoting unreachable.
-/

/-! ## Character-level string utilities -/

/-- Split a list of characters at every comma (the default delimiter of
Python's `csv` module, which the code uses for both reading and writing). -/
def splitCommaChars : List Char → List (List Char)
  | [] => [[]]
  | c :: rest =>
    let r := splitCommaChars rest
    if c = ',' then [] :: r
    else match r with
      | [] => [[c]]
      | h :: t => (c :: h) :: t

/-- String version of `splitCommaChars`; models `str.split(',')` /
`csv` field splitting for quote-free lines. -/
def splitComma (s : String) : List String :=
  (splitCommaChars s.data).map String.mk

/-- Join strings with commas; models `csv` writing of quote-free fields. -/
def joinComma : List String → String
  | [] => ""
  | [s] => s
  | s :: rest => s ++ "," ++ joinComma rest

/-- Test whether the first list is a prefix of the second. -/
def charsLead : List Char → List Char → Bool
  | [], _ => true
  | _ :: _, [] => false
  | p :: ps, c :: cs => p = c && charsLead ps cs

/-- Does `hay` contain `needle` as a contiguous substring?  Models Python's
`needle in hay` on strings (in particular the empty needle is contained in
everything). -/
def charsContains (hay needle : List Char) : Bool :=
  match hay with
  | [] => charsLead needle []
  | _ :: rest => charsLead needle hay || charsContains rest needle

/-- Python's `sub in s` substring test. -/
def strContains (hay needle : String) : Bool :=
  charsContains hay.data needle.data

/-- Test whether a character list contains a slash. -/
def hasSlash : List Char → Bool
  | [] => false
  | c :: rest => c = '/' || hasSlash rest

/-- Directory part of a slash-separated path: everything before the last
`/` (empty if there is no `/`).  Used only to talk about where files live. -/
def dirnameChars : List Char → List Char
  | [] => []
  | c :: rest =>
    if hasSlash rest then c :: dirnameChars rest
    else if c = '/' then [] else []

/-- Model of `os.path.dirname` for simple slash-separated paths. -/
def dirname (s : String) : String :=
  String.mk (dirnameChars s.data)

/-- Lower-case an ASCII character. -/
def asciiLower (c : Char) : Char :=
  if 'A' ≤ c ∧ c ≤ 'Z' then Char.ofNat (c.toNat + 32) else c

/-- File extension without the dot, lower-cased: models
`os.path.splitext(p)[1].lower().replace('.', '')` for ordinary file names
(a name whose final component contains a dot). -/
def extOfAux : List Char → Option (List Char)
  | [] => none
  | c :: rest =>
    match extOfAux rest with
    | some e => some e
    | none => if c = '.' then some rest else if c = '/' then some [] else none

/-- Extension of a path, `""` when there is none. -/
def extOf (s : String) : String :=
  match extOfAux s.data with
  | some e => String.mk (e.map asciiLower)
  | none => ""

/-! ## Date-times -/

/-- A `datetime.datetime` value: second-precision fields plus microseconds. -/
structure DateTime where
  year : Nat
  month : Nat
  day : Nat
  hour : Nat
  minute : Nat
  second : Nat
  micro : Nat
deriving DecidableEq, Repr

/-- The Unix epoch `datetime.datetime(1970, 1, 1)`. -/
def DateTime.epoch : DateTime := ⟨1970, 1, 1, 0, 0, 0, 0⟩

/-- Python `datetime` comparison `a < b` (lexicographic on the fields). -/
def DateTime.ltb (a b : DateTime) : Bool :=
  if a.year ≠ b.year then decide (a.year < b.year)
  else if a.month ≠ b.month then decide (a.month < b.month)
  else if a.day ≠ b.day then decide (a.day < b.day)
  else if a.hour ≠ b.hour then decide (a.hour < b.hour)
  else if a.minute ≠ b.minute then decide (a.minute < b.minute)
  else if a.second ≠ b.second then decide (a.second < b.second)
  else decide (a.micro < b.micro)

/-- The decimal digit character for `d % 10`. -/
def digitChar (d : Nat) : Char :=
  Char.ofNat (48 + d % 10)

/-- Two-digit zero-padded decimal rendering (for values below 100). -/
def pad2 (n : Nat) : List Char :=
  [digitChar (n / 10), digitChar n]

/-- Four-digit zero-padded decimal rendering (for values below 10000). -/
def pad4 (n : Nat) : List Char :=
  [digitChar (n / 1000), digitChar (n / 100), digitChar (n / 10), digitChar n]

/-- Model of `strftime('%Y-%m-%d %H:%M:%S')`: seconds precision, microseconds are
truncated away. -/
def DateTime.strftime (t : DateTime) : String :=
  String.mk (pad4 t.year ++ '-' :: pad2 t.month ++ '-' :: pad2 t.day ++
    ' ' :: pad2 t.hour ++ ':' :: pad2 t.minute ++ ':' :: pad2 t.second)

/-- Model of `strftime('%Y%m%d%H%M%S')` (used for log file names). -/
def DateTime.strftimeCompact (t : DateTime) : String :=
  String.mk (pad4 t.year ++ pad2 t.month ++ pad2 t.day ++
    pad2 t.hour ++ pad2 t.minute ++ pad2 t.second)

/-- Is `c` a decimal digit? -/
def isDigitChar (c : Char) : Bool :=
  '0' ≤ c && c ≤ '9'

/-- Split a maximal leading run of digits off a character list, returning
the run and the remainder. -/
def takeDigits : List Char → (List Char × List Char)
  | [] => ([], [])
  | c :: rest =>
    if isDigitChar c then
      let (run, rem) := takeDigits rest
      (c :: run, rem)
    else ([], c :: rest)

/-- Numeric value of a digit run. -/
def digitsToNat (l : List Char) : Nat :=
  l.foldl (fun acc c => acc * 10 + (c.toNat - 48)) 0

/-- Is `y` a leap year (Gregorian rule, as `datetime` uses)? -/
def isLeapYear (y : Nat) : Bool :=
  (y % 4 = 0 && y % 100 ≠ 0) || y % 400 = 0

/-- Days in a month, as validated by the `datetime` constructor. -/
def daysInMonth (y m : Nat) : Nat :=
  if m = 2 then (if isLeapYear y then 29 else 28)
  else if m = 4 ∨ m = 6 ∨ m = 9 ∨ m = 11 then 30
  else 31

/-- Parse one numeric field of `lo` to `hi` digits followed by the literal
separator `sep`, as `strptime` does (`%Y` takes exactly four digits, the
other directives one or two). -/
def parseField (lo hi : Nat) (sep : Char) (l : List Char) : Option (Nat × List Char) :=
  let (run, rem) := takeDigits l
  if run.length < lo ∨ run.length > hi then none
  else match rem with
    | c :: rest => if c = sep then some (digitsToNat run, rest) else none
    | [] => none

/-- Parse the final numeric field (`lo` to `hi` digits, end of string). -/
def parseLastField (lo hi : Nat) (l : List Char) : Option Nat :=
  let (run, rem) := takeDigits l
  if run.length < lo ∨ run.length > hi then none
  else match rem with
    | [] => some (digitsToNat run)
    | _ :: _ => none

/-- Model of `datetime.strptime(s, '%Y-%m-%d %H:%M:%S')`, returning `none` where
Python raises `ValueError`: the year is exactly four digits, the other
fields one or two digits, the separators literal, the whole string
consumed, and all fields within `datetime`'s valid ranges. -/
def strptime (s : String) : Option DateTime :=
  match parseField 4 4 '-' s.data with
  | none => none
  | some (y, r1) =>
    match parseField 1 2 '-' r1 with
    | none => none
    | some (mo, r2) =>
      match parseField 1 2 ' ' r2 with
      | none => none
      | some (d, r3) =>
        match parseField 1 2 ':' r3 with
        | none => none
        | some (h, r4) =>
          match parseField 1 2 ':' r4 with
          | none => none
          | some (mi, r5) =>
            match parseLastField 1 2 r5 with
            | none => none
            | some se =>
              if 1 ≤ mo ∧ mo ≤ 12 ∧ 1 ≤ d ∧ d ≤ daysInMonth y mo ∧
                  h ≤ 23 ∧ mi ≤ 59 ∧ se ≤ 59 then
                some ⟨y, mo, d, h, mi, se, 0⟩
              else none

/-! ## Errors and machine state -/

/-- Python exceptions that the modelled code can raise. -/
inductive PyError where
  | fileNotFoundError
  | runtimeError
  | valueError
  | typeError
  | attributeError
  | keyError
  | notImplementedError
  | nameError
deriving DecidableEq, Repr

deriving instance DecidableEq for Except

/-- One entry of `os.listdir(path)` for the monitored directory, bundled
with the results of the `os.path.isfile` and `os.path.getmtime` calls the
code makes on it. -/
structure DirEntry where
  name : String
  isfile : Bool
  mtime : DateTime
deriving DecidableEq, Repr

/-- The observable machine state.  `files` maps a file name to its lines
(`none` = missing); `isdir` answers `os.path.isdir`; `listdir` gives the
directory listing of the monitored path; `envConfigFile` is the
`CONFIGFILE` environment variable; `configData f k` is the value of key
`k` in the JSON configuration file `f` (JSON parsing abstracted);
`now` is the wall clock; `sysTempDir`/`tempName` determine the name
`tempfile.NamedTemporaryFile` picks; `log` is the audit log contents. -/
structure World where
  files : String → Option (List String)
  isdir : String → Bool
  listdir : String → List DirEntry
  envConfigFile : Option String
  configData : String → String → Option String
  now : DateTime
  sysTempDir : String
  tempName : String
  log : List String

/-- Model of `os.path.isfile` over the `files` map. -/
def World.isfile (w : World) (p : String) : Bool :=
  (w.files p).isSome

/-- Write (create or overwrite) a file. -/
def World.setFile (w : World) (p : String) (c : List String) : World :=
  { w with files := fun q => if q = p then some c else w.files q }

/-! ## `misc.get_config` -/

/-- Model of `misc.get_config(key, config_file)`.  Resolution of the configuration
file: an explicit `config_file` wins (even the empty string — the code
checks `config_file is None`, not truthiness); otherwise the `CONFIGFILE`
environment variable; otherwise `RuntimeError`.  The file must exist
(`FileNotFoundError`), its extension must be `json` or `yaml`
(`NotImplementedError`); the `yaml` branch is commented out in the source,
so a `yaml` file leaves `key_data` unbound and raises `NameError`.  A
present JSON file returns `key_data.get(key)`, which is `None` when the
key is absent (no error). -/
def get_config (key : String) (config_file : Option String) (w : World) :
    Except PyError (Option String) :=
  match (match config_file with
         | some s => Except.ok s
         | none => match w.envConfigFile with
                   | some e => Except.ok e
                   | none => Except.error PyError.runtimeError : Except PyError String) with
  | Except.error e => Except.error e
  | Except.ok cf =>
    if ¬ w.isfile cf then Except.error PyError.fileNotFoundError
    else
      let ext := extOf cf
      if ext = "json" then Except.ok (w.configData cf key)
      else if ext = "yaml" then Except.error PyError.nameError
      else Except.error PyError.notImplementedError

/-! ## CSV dictionaries (`csv.DictReader` / `csv.DictWriter` defaults) -/

/-- Look up field `k` of a data row whose fields are `parts`, under header
`fieldnames`, as `csv.DictReader` row access does: `KeyError` when `k` is
not a field name; the `restval` `None` (modelled `none`) when the row is
shorter than the header; otherwise the field's text. -/
def dictGet (fieldnames parts : List String) (k : String) :
    Except PyError (Option String) :=
  if fieldnames.contains k then Except.ok ((fieldnames.zip parts).lookup k)
  else Except.error PyError.keyError

/-- Update (or add) key `k` in an association-list row, as Python dict
assignment does. -/
def assocSet (row : List (String × String)) (k v : String) : List (String × String) :=
  match row with
  | [] => [(k, v)]
  | (k', v') :: rest => if k' = k then (k, v) :: rest else (k', v') :: assocSet rest k v

/-- Serialise a row for `csv.DictWriter.writerow`: one value per field
name, missing values as the empty string. -/
def writeRowLine (fieldnames : List String) (row : List (String × String)) : String :=
  joinComma (fieldnames.map (fun k => (row.lookup k).getD ""))

/-! ## `monitoring._processtime` -/

/-- The value returned by `_processtime`: a `datetime` in read mode (and
for a valid `dt_string`), but the *formatted string* in write mode — the
Python function returns `cur_dt.strftime(...)` there. -/
inductive PTimeVal where
  | dtv (t : DateTime)
  | strv (s : String)
deriving DecidableEq, Repr

/-- Resolve the reference-store file name:
`get_config('fileproc_referenceFile', self.config_file)`, with
`os.path.isfile(None)` raising `TypeError` when the key is missing. -/
def resolveRefFile (config_file : Option String) (w : World) :
    Except PyError String :=
  match get_config "fileproc_referenceFile" config_file w with
  | Except.error e => Except.error e
  | Except.ok none => Except.error PyError.typeError
  | Except.ok (some s) => Except.ok s

/-- The read loop of `_processtime`: scan data rows for the first one whose
`Path` field equals `selfPath` and parse its `LastMonitorTime`; `none`
when no row matches.  A matching row with a missing time field raises
`TypeError` (Python `strptime(None, ...)` outside the guarded `try`), and
a malformed stored time raises `ValueError`. -/
def findRow (fieldnames : List String) (selfPath : String) :
    List String → Except PyError (Option DateTime)
  | [] => Except.ok none
  | r :: rest =>
    let parts := splitComma r
    match dictGet fieldnames parts "Path" with
    | Except.error e => Except.error e
    | Except.ok v =>
      if v = some selfPath then
        match dictGet fieldnames parts "LastMonitorTime" with
        | Except.error e => Except.error e
        | Except.ok none => Except.error PyError.typeError
        | Except.ok (some s) =>
          match strptime s with
          | none => Except.error PyError.valueError
          | some t => Except.ok (some t)
      else findRow fieldnames selfPath rest

/-- The rewrite loop of `_processtime`'s write branch: every data row is
re-emitted, with the `LastMonitorTime` of rows whose `Path` equals
`selfPath` replaced by `timeStr`.  Returns the output lines and whether a
match was found.  A row with more fields than the header makes
`DictWriter.writerow` raise `ValueError` (the `DictReader` `restkey`
`None` is not a field name); row field access can raise `KeyError` first,
exactly as in the source order. -/
def rewriteRows (fieldnames : List String) (selfPath timeStr : String) :
    List String → Except PyError (List String × Bool)
  | [] => Except.ok ([], false)
  | r :: rest =>
    let parts := splitComma r
    match dictGet fieldnames parts "Path" with
    | Except.error e => Except.error e
    | Except.ok v =>
      if parts.length > fieldnames.length then Except.error PyError.valueError
      else
        let isMatch := v = some selfPath
        let row := fieldnames.zip parts
        let row' := if isMatch then assocSet row "LastMonitorTime" timeStr else row
        match rewriteRows fieldnames selfPath timeStr rest with
        | Except.error e => Except.error e
        | Except.ok (outs, found) =>
          Except.ok (writeRowLine fieldnames row' :: outs, isMatch || found)

/-- The name `tempfile.NamedTemporaryFile(delete=False).name` produces: a
fresh file in the *system temporary directory* (not the store's
directory). -/
def tempPathOf (w : World) : String :=
  w.sysTempDir ++ "/" ++ w.tempName

/-- Model of `monitoring._processtime(readwrite, dt_string)`.

`selfPath` is `self.path`; `refDelimAttr` is the `self.ref_delim`
*attribute* — `none` models the attribute not existing yet, which is the
situation during `__init__` (the attribute is assigned only after
`_processtime` has been called), so touching it raises `AttributeError`.

Faithful control flow: `readwrite` is validated; a parseable `dt_string`
is returned immediately (`TypeError`/`ValueError` from `strptime` are
caught and mean "no override"); the store file is created with a header
row (using `ref_delim`!) if missing; the read branch scans for the row of
`selfPath` (epoch if none); the write branch rewrites every row into a
temporary file in the system temp directory (updating or appending the
record for `selfPath` with `now` formatted to seconds) and then
`shutil.move`s it over the store. -/
def processtime (w : World) (selfPath : String) (refDelimAttr : Option String)
    (config_file : Option String) (readwrite : String) (dtString : Option String) :
    Except PyError (PTimeVal × World) :=
  if readwrite ≠ "r" ∧ readwrite ≠ "w" then Except.error PyError.valueError
  else match dtString.bind strptime with
  | some t => Except.ok (PTimeVal.dtv t, w)
  | none =>
    match resolveRefFile config_file w with
    | Except.error e => Except.error e
    | Except.ok refName =>
      let created : Except PyError (List String × World) :=
        match w.files refName with
        | some c => Except.ok (c, w)
        | none =>
          match refDelimAttr with
          | none => Except.error PyError.attributeError
          | some d =>
            let hdr := "Path" ++ d ++ "LastMonitorTime"
            Except.ok ([hdr], w.setFile refName [hdr])
      match created with
      | Except.error e => Except.error e
      | Except.ok (content, w1) =>
        if readwrite = "r" then
          match content with
          | [] => Except.ok (PTimeVal.dtv DateTime.epoch, w1)
          | hdr :: rows =>
            match findRow (splitComma hdr) selfPath rows with
            | Except.error e => Except.error e
            | Except.ok none => Except.ok (PTimeVal.dtv DateTime.epoch, w1)
            | Except.ok (some t) => Except.ok (PTimeVal.dtv t, w1)
        else
          match content with
          | [] => Except.error PyError.typeError
          | hdr :: rows =>
            let fieldnames := splitComma hdr
            let timeStr := w1.now.strftime
            match rewriteRows fieldnames selfPath timeStr rows with
            | Except.error e => Except.error e
            | Except.ok (outs, found) =>
              let newRow : List (String × String) :=
                [("Path", selfPath), ("LastMonitorTime", timeStr)]
              let tail : Except PyError (List String) :=
                if found then Except.ok []
                else if fieldnames.contains "Path" ∧
                        fieldnames.contains "LastMonitorTime" then
                  Except.ok [writeRowLine fieldnames newRow]
                else Except.error PyError.valueError
              match tail with
              | Except.error e => Except.error e
              | Except.ok extra =>
                let newContent := joinComma fieldnames :: outs ++ extra
                let tmp := tempPathOf w1
                let w2 : World :=
                  { w1 with files := fun q =>
                      if q = refName then some newContent
                      else if q = tmp then none
                      else w1.files q }
                Except.ok (PTimeVal.strv timeStr, w2)

/-! ## The `monitoring` class -/

/-- In-memory state of a `monitoring` instance (the attributes set by
`__init__`).  `ref_delim`/`log_delim` are `Option` because
`misc.get_config` returns `None` for a missing key. -/
structure Monitoring where
  path : String
  config_file : Option String
  error : Option String
  last_review_time : DateTime
  manual_review : Bool
  log_path : String
  log_name : String
  log_delim : Option String
  ref_delim : Option String
deriving DecidableEq, Repr

/-- The guard on line 204 of `fileproc.py`:
`if config_file and not os.path.isdir(config_file): raise FileNotFoundError`.
Python truthiness: `None` and the empty string are falsy, so both skip the
guard; a non-empty string must name an existing *directory*. -/
def init_config_guard (config_file : Option String) (isdir : String → Bool) : Bool :=
  match config_file with
  | none => false
  | some s => decide (s ≠ "") && !(isdir s)

/-- Model of `monitoring.__init__` up to but not including the final `_validate()`
call (lines 204–217): the config-file guard, the initial
`_processtime(readwrite='r')` — run *before* `self.ref_delim` exists, so
the attribute parameter is `none` — and the configuration lookups.
`os.path.join(None, ...)` for a missing `logRoot` raises `TypeError`. -/
def monitoringInitPre (path : String) (config_file : Option String) (w : World) :
    Except PyError (Monitoring × World) :=
  if init_config_guard config_file w.isdir then Except.error PyError.fileNotFoundError
  else match processtime w path none config_file "r" none with
  | Except.error e => Except.error e
  | Except.ok (tv, w1) =>
    let lrt := match tv with
      | PTimeVal.dtv t => t
      | PTimeVal.strv _ => DateTime.epoch
    match get_config "logRoot" config_file w1 with
    | Except.error e => Except.error e
    | Except.ok none => Except.error PyError.typeError
    | Except.ok (some lr) =>
      match get_config "logDelimiter" config_file w1 with
      | Except.error e => Except.error e
      | Except.ok ld =>
        match get_config "fileproc_referenceDelimiter" config_file w1 with
        | Except.error e => Except.error e
        | Except.ok rd =>
          Except.ok ({ path := path, config_file := config_file, error := none,
                       last_review_time := lrt, manual_review := false,
                       log_path := lr ++ "/" ++ "fileproc",
                       log_name := "monitoring_" ++ w1.now.strftimeCompact ++ ".log",
                       log_delim := ld, ref_delim := rd }, w1)

/-- Model of `monitoring._validate` (drops the leading underscore): the monitored
path must be an existing directory (`FileNotFoundError`), and must not
contain the reference delimiter (`RuntimeError`); `self.ref_delim in
self.path` with a `None` delimiter raises `TypeError`.  Note the order:
the existence check comes first. -/
def Monitoring.validate (m : Monitoring) (w : World) :
    Except PyError (Monitoring × World) :=
  if ¬ w.isdir m.path then Except.error PyError.fileNotFoundError
  else match m.ref_delim with
  | none => Except.error PyError.typeError
  | some d =>
    if strContains m.path d then Except.error PyError.runtimeError
    else Except.ok (m, w)

/-- Model of `monitoring.__init__(path, config_file)` in full. -/
def monitoringInit (path : String) (config_file : Option String) (w : World) :
    Except PyError (Monitoring × World) :=
  match monitoringInitPre path config_file w with
  | Except.error e => Except.error e
  | Except.ok (m, w1) => m.validate w1

/-- Model of `strftime('%Y-%m-%d')` (used by `_writelog`). -/
def DateTime.strfdate (t : DateTime) : String :=
  String.mk (pad4 t.year ++ '-' :: pad2 t.month ++ '-' :: pad2 t.day)

/-- Model of `strftime('%H:%M:%S')` (used by `_writelog`). -/
def DateTime.strftod (t : DateTime) : String :=
  String.mk (pad2 t.hour ++ ':' :: pad2 t.minute ++ ':' :: pad2 t.second)

/-- Model of `monitoring._writelog(filename)` (drops the leading underscore): append
one audit line `path, date, time, filename` joined by the log delimiter
(Python renders a `None` delimiter as the text `"None"` inside the
f-string).  Lazy creation of the log directory is elided — only the
appended text is modelled. -/
def Monitoring.writelog (m : Monitoring) (w : World) (filename : String) : World :=
  let d := m.log_delim.getD "None"
  let line := m.path ++ d ++ w.now.strfdate ++ d ++ w.now.strftod ++ d ++ filename
  { w with log := w.log ++ [line] }

/-- Model of `monitoring.change_time(dt_string)`: delegate to
`_processtime(readwrite='r', dt_string=dt_string)` and flip
`manual_review`.  Note that `_processtime` *catches* the parse failure of
a malformed `dt_string` and falls through to reading the reference store —
it does not re-raise.  In read mode the result is always a `dtv` (the
`strv` arm below is dead code, see `processtime_r_ptimeval`). -/
def Monitoring.change_time (m : Monitoring) (w : World) (dt_string : String) :
    Except PyError (Monitoring × World) :=
  match processtime w m.path m.ref_delim m.config_file "r" (some dt_string) with
  | Except.error e => Except.error e
  | Except.ok (tv, w1) =>
    let t := match tv with
      | PTimeVal.dtv t => t
      | PTimeVal.strv _ => DateTime.epoch
    Except.ok ({ m with last_review_time := t, manual_review := true }, w1)

/-- The scan loop of `modified_files`: walk the directory listing in
order, keep the names of regular files whose modification time is
strictly greater than the cutoff. -/
def modLoop (cutoff : DateTime) : List DirEntry → List String
  | [] => []
  | e :: rest =>
    if e.isfile then
      if DateTime.ltb cutoff e.mtime then e.name :: modLoop cutoff rest
      else modLoop cutoff rest
    else modLoop cutoff rest

/-- Model of `monitoring.modified_files(write_log)`: scan the directory; then,
unless `manual_review` is set, persist "now" for `self.path` through
`_processtime(readwrite='w')` — whose *return value is discarded*, so
`self.last_review_time` is NOT updated; then optionally write the audit
log.  The instance's attributes are never mutated by this method, which is
why it returns only the file list and the new world. -/
def Monitoring.modified_files (m : Monitoring) (w : World) (write_log : Bool) :
    Except PyError (List String × World) :=
  let wl := write_log       -- `write_log in BOOLEANS` always holds for a bool
  let mod_files := modLoop m.last_review_time (w.listdir m.path)
  let afterStore : Except PyError World :=
    if ¬ m.manual_review then
      match processtime w m.path m.ref_delim m.config_file "w" none with
      | Except.error e => Except.error e
      | Except.ok (_, w1) => Except.ok w1
    else Except.ok w
  match afterStore with
  | Except.error e => Except.error e
  | Except.ok w1 =>
    let w2 := if wl then mod_files.foldl (fun acc f => m.writelog acc f) w1 else w1
    Except.ok (mod_files, w2)

/-! ## Observation helpers

The `World` contains functions, so results are observed through
projections that live in decidable-equality types. -/

/-- The list returned by a call to `modified_files` (`none` on a raised
exception). -/
def mf_result (m : Monitoring) (w : World) (wl : Bool) : Option (List String) :=
  match m.modified_files w wl with
  | Except.ok (l, _) => some l
  | Except.error _ => none

/-- The contents of file `p` after a call to `modified_files`. -/
def mf_storeFile (m : Monitoring) (w : World) (wl : Bool) (p : String) :
    Option (Option (List String)) :=
  match m.modified_files w wl with
  | Except.ok (_, w1) => some (w1.files p)
  | Except.error _ => none

/-- The two lists returned by two back-to-back calls to `modified_files`
on the *same* instance (`none` if either raises). -/
def mf_twice_results (m : Monitoring) (w : World) (wl : Bool) :
    Option (List String × List String) :=
  match m.modified_files w wl with
  | Except.error _ => none
  | Except.ok (l1, w1) =>
    match m.modified_files w1 wl with
    | Except.error _ => none
    | Except.ok (l2, _) => some (l1, l2)

/-- The contents of file `p` after each of two back-to-back calls to
`modified_files` on the same instance. -/
def mf_twice_storeFile (m : Monitoring) (w : World) (wl : Bool) (p : String) :
    Option (Option (List String) × Option (List String)) :=
  match m.modified_files w wl with
  | Except.error _ => none
  | Except.ok (_, w1) =>
    match m.modified_files w1 wl with
    | Except.error _ => none
    | Except.ok (_, w2) => some (w1.files p, w2.files p)

/-- The exception raised by `monitoring.__init__` (`none` on success). -/
def init_error (path : String) (config_file : Option String) (w : World) :
    Option PyError :=
  match monitoringInit path config_file w with
  | Except.error e => some e
  | Except.ok _ => none

/-- The instance built by the pre-validation part of `__init__`. -/
def init_pre_view (path : String) (config_file : Option String) (w : World) :
    Option Monitoring :=
  match monitoringInitPre path config_file w with
  | Except.ok (m, _) => some m
  | Except.error _ => none

/-- The cutoff and override flag after `change_time` (`none` on a raised
exception). -/
def change_time_view (m : Monitoring) (w : World) (s : String) :
    Option (DateTime × Bool) :=
  match m.change_time w s with
  | Except.ok (m1, _) => some (m1.last_review_time, m1.manual_review)
  | Except.error _ => none

/-! ## Store well-formedness helpers and general lemmas -/

/-- Test whether a character list contains a comma. -/
def hasComma : List Char → Bool
  | [] => false
  | c :: rest => c = ',' || hasComma rest

/-- A store field is comma-free (so the default-delimiter `csv` round
trip is faithful and quoting never triggers). -/
def commaFree (s : String) : Bool :=
  !hasComma s.data

/-- Serialisation of one store record, as the code's `DictWriter` emits it
for the standard header. -/
def mkLine (r : String × String) : String :=
  r.1 ++ "," ++ r.2

/-- The record list produced by one `save` (`_processtime` write): rows
whose path matches are updated to the formatted scan time, everything else
is kept; a new record is appended when no row matched. -/
def updateRecs (p ts : String) (recs : List (String × String)) : List (String × String) :=
  recs.map (fun r => if r.1 = p then (p, ts) else r) ++
    (if recs.any (fun r => r.1 = p) then [] else [(p, ts)])

theorem hasComma_append (a b : List Char) :
    hasComma (a ++ b) = (hasComma a || hasComma b) := by
  induction a with
  | nil => simp [hasComma]
  | cons c a' ih => simp [hasComma, ih, Bool.or_assoc]

theorem splitCommaChars_noComma (a : List Char) (h : hasComma a = false) :
    splitCommaChars a = [a] := by
  induction a with
  | nil => rfl
  | cons c a' ih =>
    simp only [hasComma, Bool.or_eq_false_iff, decide_eq_false_iff_not] at h
    simp [splitCommaChars, ih h.2, h.1]

theorem splitCommaChars_sep (a b : List Char) (h : hasComma a = false) :
    splitCommaChars (a ++ ',' :: b) = a :: splitCommaChars b := by
  induction a with
  | nil => simp [splitCommaChars]
  | cons c a' ih =>
    simp only [hasComma, Bool.or_eq_false_iff, decide_eq_false_iff_not] at h
    simp only [List.cons_append, splitCommaChars, List.append_eq]
    rw [ih h.2]
    simp [h.1]

theorem splitComma_mkLine_left (p t : String) (hp : commaFree p = true) :
    splitComma (p ++ "," ++ t) = p :: splitComma t := by
  have hp' : hasComma p.data = false := by
    simpa [commaFree] using hp
  have hdata : (p ++ "," ++ t).data = p.data ++ ',' :: t.data := by
    simp [String.data_append]
  unfold splitComma
  rw [hdata, splitCommaChars_sep _ _ hp']
  rfl

theorem splitComma_mkLine (p t : String) (hp : commaFree p = true)
    (ht : commaFree t = true) :
    splitComma (p ++ "," ++ t) = [p, t] := by
  rw [splitComma_mkLine_left p t hp]
  have ht' : hasComma t.data = false := by simpa [commaFree] using ht
  unfold splitComma
  rw [splitCommaChars_noComma _ ht']
  rfl

theorem digitChar_ne_comma (d : Nat) : digitChar d ≠ ',' := by
  unfold digitChar
  have h : d % 10 = 0 ∨ d % 10 = 1 ∨ d % 10 = 2 ∨ d % 10 = 3 ∨ d % 10 = 4 ∨
      d % 10 = 5 ∨ d % 10 = 6 ∨ d % 10 = 7 ∨ d % 10 = 8 ∨ d % 10 = 9 := by omega
  rcases h with h | h | h | h | h | h | h | h | h | h <;> rw [h] <;> decide

theorem decide_digitChar_comma (d : Nat) : decide (digitChar d = ',') = false :=
  decide_eq_false (digitChar_ne_comma d)

/-- Formatted timestamps never contain the csv delimiter, so a store row
written by the code is well formed. -/
theorem strftime_commaFree (t : DateTime) : commaFree t.strftime = true := by
  simp [commaFree, DateTime.strftime, pad4, pad2, hasComma_append, hasComma,
    decide_digitChar_comma]

theorem hasSlash_append (a b : List Char) :
    hasSlash (a ++ b) = (hasSlash a || hasSlash b) := by
  induction a with
  | nil => simp [hasSlash]
  | cons c a' ih => simp [hasSlash, ih, Bool.or_assoc]

theorem dirnameChars_append (a b : List Char) (hb : hasSlash b = false) :
    dirnameChars (a ++ '/' :: b) = a := by
  induction a with
  | nil => simp [dirnameChars, hasSlash, hb]
  | cons c a' ih =>
    have hsl : hasSlash (a' ++ '/' :: b) = true := by
      simp [hasSlash_append, hasSlash]
    simp [dirnameChars, hsl, ih]

/-- Appending a slash-free name to a directory with `dir ++ "/" ++ name`
has that directory as its `dirname`. -/
theorem dirname_append (d n : String) (hn : hasSlash n.data = false) :
    dirname (d ++ "/" ++ n) = d := by
  have hdata : (d ++ "/" ++ n).data = d.data ++ '/' :: n.data := by
    simp [String.data_append]
  unfold dirname
  rw [hdata, dirnameChars_append _ _ hn]

theorem dictGet_std_path (q : String) (rest : List String) :
    dictGet ["Path", "LastMonitorTime"] (q :: rest) "Path" =
      Except.ok (some q) := rfl

theorem writeRowLine_std (q t : String) :
    writeRowLine ["Path", "LastMonitorTime"] [("Path", q), ("LastMonitorTime", t)] =
      q ++ "," ++ t := rfl

theorem assocSet_std (q t ts : String) :
    assocSet [("Path", q), ("LastMonitorTime", t)] "LastMonitorTime" ts =
      [("Path", q), ("LastMonitorTime", ts)] := rfl

/-- Reading a well-formed store that holds no record for `p` scans every
row without a match. -/
theorem findRow_nomatch (p : String) (recs : List (String × String))
    (h1 : ∀ r ∈ recs, commaFree r.1 = true)
    (h2 : ∀ r ∈ recs, r.1 ≠ p) :
    findRow ["Path", "LastMonitorTime"] p (recs.map mkLine) = Except.ok none := by
  induction recs with
  | nil => rfl
  | cons r rs ih =>
    have hc := h1 r (List.mem_cons_self r rs)
    have hp := h2 r (List.mem_cons_self r rs)
    simp only [List.map_cons, findRow, mkLine]
    rw [splitComma_mkLine_left r.1 r.2 hc, dictGet_std_path]
    have : (some r.1 = some p) = False := by simp [hp]
    simp only [this, if_false]
    exact ih (fun x hx => h1 x (List.mem_cons_of_mem r hx))
      (fun x hx => h2 x (List.mem_cons_of_mem r hx))

/-- Characterisation of the rewrite loop of `save` on a well-formed store:
every row is re-emitted, the rows for `p` get the new time, and the
returned flag says whether any row matched. -/
theorem rewriteRows_wf (p ts : String) (recs : List (String × String))
    (h1 : ∀ r ∈ recs, commaFree r.1 = true ∧ commaFree r.2 = true) :
    rewriteRows ["Path", "LastMonitorTime"] p ts (recs.map mkLine) =
      Except.ok (recs.map (fun r => if r.1 = p then mkLine (p, ts) else mkLine r),
                 recs.any (fun r => r.1 = p)) := by
  induction recs with
  | nil => rfl
  | cons r rs ih =>
    have hc := h1 r (List.mem_cons_self r rs)
    simp only [List.map_cons, rewriteRows, mkLine]
    rw [splitComma_mkLine r.1 r.2 hc.1 hc.2, dictGet_std_path]
    rw [ih (fun x hx => h1 x (List.mem_cons_of_mem r hx))]
    by_cases hp : r.1 = p
    · simp only [hp, List.any_cons]
      simp [assocSet_std, writeRowLine_std, mkLine]
    · have h2 : (some r.1 = some p) = False := by simp [hp]
      simp only [h2, List.any_cons]
      simp [writeRowLine_std, mkLine, hp]

theorem updateRecs_map_part (p ts : String) (recs : List (String × String)) :
    (recs.map (fun r => if r.1 = p then (p, ts) else r)).map mkLine =
      recs.map (fun r => if r.1 = p then mkLine (p, ts) else mkLine r) := by
  induction recs with
  | nil => rfl
  | cons r rs ih =>
    by_cases hp : r.1 = p <;> simp [hp, ih]

theorem updateRecs_map_mkLine (p ts : String) (recs : List (String × String)) :
    (updateRecs p ts recs).map mkLine =
      recs.map (fun r => if r.1 = p then mkLine (p, ts) else mkLine r) ++
        (if recs.any (fun r => r.1 = p) then [] else [mkLine (p, ts)]) := by
  unfold updateRecs
  rw [List.map_append, updateRecs_map_part]
  congr 1
  by_cases h : recs.any (fun r => r.1 = p) <;> simp [h]

theorem header_splits :
    splitComma "Path,LastMonitorTime" = ["Path", "LastMonitorTime"] := rfl

theorem header_joins :
    joinComma ["Path", "LastMonitorTime"] = "Path,LastMonitorTime" := rfl

/-- Characterisation of `_processtime` in read mode on a well-formed store
holding no record for `p`, when the `dt_string` override is absent or
unparseable: the epoch is returned and the world is untouched. -/
theorem processtime_r_nomatch (w : World) (p : String) (dAttr : Option String)
    (cf : Option String) (refName : String) (recs : List (String × String))
    (ds : Option String) (hds : ds.bind strptime = none)
    (hres : resolveRefFile cf w = Except.ok refName)
    (hfile : w.files refName = some ("Path,LastMonitorTime" :: recs.map mkLine))
    (h1 : ∀ r ∈ recs, commaFree r.1 = true)
    (h2 : ∀ r ∈ recs, r.1 ≠ p) :
    processtime w p dAttr cf "r" ds = Except.ok (PTimeVal.dtv DateTime.epoch, w) := by
  unfold processtime
  rw [if_neg (by simp)]
  rw [hds, hres]
  simp only [hfile, header_splits]
  rw [findRow_nomatch p recs h1 h2]
  simp

/-- The world after `shutil.move(temp_file_path, reference_file)`: the
store file holds the rewritten content and the temporary file is gone
from the system temp directory. -/
def saveWorld (w : World) (refName : String) (newContent : List String) : World :=
  { w with files := fun q =>
      if q = refName then some newContent
      else if q = tempPathOf w then none
      else w.files q }

/-- Characterisation of `_processtime` in write mode on a well-formed
store: the record for `p` is set to the formatted scan time (updated in
place, or appended when absent), everything else is rewritten unchanged,
and the new content replaces the store file while the temporary file
disappears from the system temp directory. -/
theorem processtime_w_wf (w : World) (p : String) (dAttr : Option String)
    (cf : Option String) (refName : String) (recs : List (String × String))
    (hres : resolveRefFile cf w = Except.ok refName)
    (hfile : w.files refName = some ("Path,LastMonitorTime" :: recs.map mkLine))
    (hwf : ∀ r ∈ recs, commaFree r.1 = true ∧ commaFree r.2 = true) :
    processtime w p dAttr cf "w" none =
      Except.ok (PTimeVal.strv w.now.strftime,
        saveWorld w refName ("Path,LastMonitorTime" ::
          (updateRecs p w.now.strftime recs).map mkLine)) := by
  unfold processtime
  rw [if_neg (by simp)]
  simp only [Option.bind_none, Option.none_bind]
  rw [hres]
  simp only [hfile, header_splits]
  rw [rewriteRows_wf p w.now.strftime recs hwf]
  simp only [updateRecs_map_mkLine]
  by_cases hf : recs.any (fun r => r.1 = p) = true
  · simp [hf, header_joins, mkLine, saveWorld]
  · simp only [Bool.not_eq_true] at hf
    simp [hf, header_joins, mkLine, writeRowLine_std, saveWorld]

/-- The scan loop is exactly a filter of the directory listing by the
"regular file, modified strictly after the cutoff" predicate, projected to
names, in listing order. -/
theorem modLoop_eq_filter_map (c : DateTime) (es : List DirEntry) :
    modLoop c es =
      (es.filter (fun e => e.isfile && DateTime.ltb c e.mtime)).map DirEntry.name := by
  induction es with
  | nil => rfl
  | cons e rest ih =>
    simp only [modLoop, List.filter_cons, ih]
    by_cases h1 : e.isfile <;> by_cases h2 : DateTime.ltb c e.mtime <;> simp [h1, h2]

/-- Configuration resolution is stable under world changes that keep the
environment, the parsed configuration data, and file existence. -/
theorem resolveRefFile_preserved (cf : Option String) (w w' : World) (refName : String)
    (h : resolveRefFile cf w = Except.ok refName)
    (henv : w'.envConfigFile = w.envConfigFile)
    (hcd : w'.configData = w.configData)
    (hfiles : ∀ p, (w.files p).isSome = true → (w'.files p).isSome = true) :
    resolveRefFile cf w' = Except.ok refName := by
  unfold resolveRefFile get_config World.isfile at h ⊢
  cases cf with
  | some s =>
    by_cases hfe : (w.files s).isSome = true
    · have hfe' := hfiles s hfe
      simp only [hfe, hfe'] at h ⊢
      rw [hcd]
      exact h
    · simp only [Bool.not_eq_true] at hfe
      simp [hfe] at h
  | none =>
    rw [henv]
    cases he : w.envConfigFile with
    | none => rw [he] at h; simp at h
    | some e =>
      rw [he] at h
      by_cases hfe : (w.files e).isSome = true
      · have hfe' := hfiles e hfe
        simp only [hfe, hfe'] at h ⊢
        rw [hcd]
        exact h
      · simp only [Bool.not_eq_true] at hfe
        simp [hfe] at h

/-- Audit-log writing touches only the `log` component of the world. -/
theorem foldl_writelog_preserve (m : Monitoring) (fs : List String) (w : World) :
    (fs.foldl (fun acc f => m.writelog acc f) w).files = w.files ∧
    (fs.foldl (fun acc f => m.writelog acc f) w).listdir = w.listdir ∧
    (fs.foldl (fun acc f => m.writelog acc f) w).envConfigFile = w.envConfigFile ∧
    (fs.foldl (fun acc f => m.writelog acc f) w).configData = w.configData ∧
    (fs.foldl (fun acc f => m.writelog acc f) w).now = w.now ∧
    (fs.foldl (fun acc f => m.writelog acc f) w).isdir = w.isdir ∧
    (fs.foldl (fun acc f => m.writelog acc f) w).sysTempDir = w.sysTempDir ∧
    (fs.foldl (fun acc f => m.writelog acc f) w).tempName = w.tempName := by
  induction fs generalizing w with
  | nil => exact ⟨rfl, rfl, rfl, rfl, rfl, rfl, rfl, rfl⟩
  | cons f fs ih =>
    simp only [List.foldl_cons]
    simpa [Monitoring.writelog] using ih (m.writelog w f)

/-- The record list after a `save` is still well formed when the saved
path and timestamp are comma-free. -/
theorem updateRecs_wf (p ts : String) (recs : List (String × String))
    (hp : commaFree p = true) (hts : commaFree ts = true)
    (h : ∀ r ∈ recs, commaFree r.1 = true ∧ commaFree r.2 = true) :
    ∀ r ∈ updateRecs p ts recs, commaFree r.1 = true ∧ commaFree r.2 = true := by
  intro r hr
  unfold updateRecs at hr
  rcases List.mem_append.mp hr with h1 | h2
  · obtain ⟨x, hx, hfx⟩ := List.mem_map.mp h1
    by_cases hxp : x.1 = p
    · rw [if_pos hxp] at hfx
      rw [← hfx]
      exact ⟨hp, hts⟩
    · rw [if_neg hxp] at hfx
      rw [← hfx]
      exact h x hx
  · by_cases ha : recs.any (fun r => r.1 = p) = true
    · simp [ha] at h2
    · simp only [Bool.not_eq_true] at ha
      simp only [ha, if_neg] at h2
      simp only [Bool.false_eq_true, if_false, List.mem_singleton] at h2
      rw [h2]
      exact ⟨hp, hts⟩

/-- A successful `_processtime` in read mode changes at most the `files`
component of the world (by lazily creating the store file), and never
deletes a file: every other component is untouched. -/
theorem processtime_r_preserve (w : World) (p : String) (dAttr : Option String)
    (cf : Option String) (ds : Option String) (tv : PTimeVal) (w' : World)
    (h : processtime w p dAttr cf "r" ds = Except.ok (tv, w')) :
    w'.isdir = w.isdir ∧ w'.listdir = w.listdir ∧ w'.envConfigFile = w.envConfigFile ∧
    w'.configData = w.configData ∧ w'.now = w.now ∧ w'.sysTempDir = w.sysTempDir ∧
    w'.tempName = w.tempName ∧ w'.log = w.log ∧
    (∀ q, (w.files q).isSome = true → (w'.files q).isSome = true) := by
  unfold processtime at h
  rw [if_neg (by simp)] at h
  cases hds : ds.bind strptime with
  | some t =>
    simp only [hds, Except.ok.injEq, Prod.mk.injEq] at h
    obtain ⟨-, h2⟩ := h
    subst h2
    exact ⟨rfl, rfl, rfl, rfl, rfl, rfl, rfl, rfl, fun q hq => hq⟩
  | none =>
    cases hres : resolveRefFile cf w with
    | error e => simp [hds, hres] at h
    | ok refName =>
      cases hcf : w.files refName with
      | some c =>
        cases c with
        | nil =>
          simp [hds, hres, hcf] at h
          rcases h with ⟨-, rfl⟩
          exact ⟨rfl, rfl, rfl, rfl, rfl, rfl, rfl, rfl, fun q hq => hq⟩
        | cons hdr rows =>
          cases hfr : findRow (splitComma hdr) p rows with
          | error e => simp [hds, hres, hcf, hfr] at h
          | ok o =>
            cases o with
            | none =>
              simp [hds, hres, hcf, hfr] at h
              rcases h with ⟨-, rfl⟩
              exact ⟨rfl, rfl, rfl, rfl, rfl, rfl, rfl, rfl, fun q hq => hq⟩
            | some t =>
              simp [hds, hres, hcf, hfr] at h
              rcases h with ⟨-, rfl⟩
              exact ⟨rfl, rfl, rfl, rfl, rfl, rfl, rfl, rfl, fun q hq => hq⟩
      | none =>
        cases dAttr with
        | none => simp [hds, hres, hcf] at h
        | some d =>
          simp [hds, hres, hcf] at h
          rcases h with ⟨-, rfl⟩
          refine ⟨rfl, rfl, rfl, rfl, rfl, rfl, rfl, rfl, fun q hq => ?_⟩
          unfold World.setFile
          by_cases hq' : q = refName <;> simp [hq', hq]

/-- The pre-validation part of `__init__` leaves the directory structure
unchanged and records the constructor arguments in the instance. -/
theorem initPre_preserve (path : String) (cf : Option String) (w : World)
    (m : Monitoring) (w' : World)
    (h : monitoringInitPre path cf w = Except.ok (m, w')) :
    w'.isdir = w.isdir ∧ m.path = path := by
  unfold monitoringInitPre at h
  by_cases hg : init_config_guard cf w.isdir = true
  · simp [hg] at h
  · simp only [Bool.not_eq_true] at hg
    simp only [hg, Bool.false_eq_true, if_false] at h
    cases hpt : processtime w path none cf "r" none with
    | error e => simp [hpt] at h
    | ok pr =>
      obtain ⟨tv, w1⟩ := pr
      have hpres := processtime_r_preserve w path none cf none tv w1 hpt
      cases hlr : get_config "logRoot" cf w1 with
      | error e => simp [hpt, hlr] at h
      | ok lro =>
        cases lro with
        | none => simp [hpt, hlr] at h
        | some lr =>
          cases hld : get_config "logDelimiter" cf w1 with
          | error e => simp [hpt, hlr, hld] at h
          | ok ld =>
            cases hrd : get_config "fileproc_referenceDelimiter" cf w1 with
            | error e => simp [hpt, hlr, hld, hrd] at h
            | ok rd =>
              simp [hpt, hlr, hld, hrd] at h
              rcases h with ⟨rfl, rfl⟩
              exact ⟨hpres.1, rfl⟩

/-! ## Concrete test fixtures

Concrete worlds used by counterexamples and witnesses.  The configuration
is resolved through the `CONFIGFILE` environment variable pointing at a
JSON file, exactly as `misc.get_config` requires when `config_file` is
`None`. -/

/-- Configuration contents with reference delimiter `d`. -/
def testConfigD (d : String) : String → Option String := fun k =>
  if k = "fileproc_referenceFile" then some "/store/ref.csv"
  else if k = "logRoot" then some "/logs"
  else if k = "logDelimiter" then some ";"
  else if k = "fileproc_referenceDelimiter" then some d
  else none

/-- A world with the given reference-store contents, reference delimiter,
directory predicate and directory listing. -/
def testWorld (store : Option (List String)) (d : String)
    (dirs : String → Bool) (entries : List DirEntry) : World :=
  { files := fun p =>
      if p = "/cfg/config.json" then some []
      else if p = "/store/ref.csv" then store
      else none,
    isdir := dirs,
    listdir := fun _ => entries,
    envConfigFile := some "/cfg/config.json",
    configData := fun f k => if f = "/cfg/config.json" then testConfigD d k else none,
    now := ⟨2024, 7, 1, 12, 0, 0, 0⟩,
    sysTempDir := "/tmp",
    tempName := "tmp001",
    log := [] }

/-- A fully constructed monitor instance over `testWorld` fixtures. -/
def testMonitor (p : String) (lrt : DateTime) (man : Bool) (d : String) : Monitoring :=
  { path := p, config_file := none, error := none,
    last_review_time := lrt, manual_review := man,
    log_path := "/logs/fileproc", log_name := "monitoring_20240701120000.log",
    log_delim := some ";", ref_delim := some d }

/-! ## Claim C5 -/

/-- C5 (code bug): the claim says that when the store file is absent at
`load` time — including the load performed during Monitor construction —
the file is lazily created with just a header row and the operation
succeeds.  The lazy-creation code exists (lines 268–275) and the
`__init__` docstring lists only `FileNotFoundError`/`RuntimeError` as
possible failures, but `__init__` calls `_processtime` (line 210) before
assigning `self.ref_delim` (line 217), and the creation path reads
`self.ref_delim` (line 273).  So constructing a Monitor with the store
file absent raises `AttributeError` instead of creating the file; the
same creation path works fine after construction (second conjunct: a
post-construction read via `change_time` with an unparseable string does
create the header file and succeed). -/
theorem C5_theorem :
    init_error "/watched" none
      (testWorld none "," (fun p => p = "/watched") []) =
        some PyError.attributeError ∧
    (match (testMonitor "/watched" ⟨2024, 1, 1, 0, 0, 0, 0⟩ false ",").change_time
        (testWorld none "," (fun p => p = "/watched") []) "garbage" with
     | Except.ok (m1, w1) =>
        some (m1.last_review_time, m1.manual_review, w1.files "/store/ref.csv")
     | Except.error _ => none) =
      some (DateTime.epoch, true, some ["Path,LastMonitorTime"]) := by
  exact ⟨by decide, by decide⟩

/-! ## Claim C6 -/

/-- C6 (confirmed): for every path `p` that has never been saved to the
store, `load(p)` — `_processtime` in read mode — returns the Unix epoch
timestamp and does not fail.  The store is well formed: standard header,
each data row has a comma-free path field differing from `p`, and the
store file is present (the constructor argument `dt_string` is absent or
unparseable, as in every `load` the code performs). -/
theorem C6_theorem (w : World) (p : String) (dAttr : Option String)
    (cf : Option String) (refName : String) (recs : List (String × String))
    (hres : resolveRefFile cf w = Except.ok refName)
    (hfile : w.files refName = some ("Path,LastMonitorTime" :: recs.map mkLine))
    (h1 : ∀ r ∈ recs, commaFree r.1 = true)
    (h2 : ∀ r ∈ recs, r.1 ≠ p) :
    processtime w p dAttr cf "r" none = Except.ok (PTimeVal.dtv DateTime.epoch, w) :=
  processtime_r_nomatch w p dAttr cf refName recs none rfl hres hfile h1 h2

/-- Witness for C6 at a concrete store holding records for two other
paths. -/
theorem C6_witness :
    resolveRefFile none
      (testWorld (some ["Path,LastMonitorTime", "/a,2024-01-01 00:00:00",
        "/b,2024-02-02 10:30:00"]) "," (fun _ => true) []) = Except.ok "/store/ref.csv" ∧
    processtime
      (testWorld (some ["Path,LastMonitorTime", "/a,2024-01-01 00:00:00",
        "/b,2024-02-02 10:30:00"]) "," (fun _ => true) [])
      "/never-saved" (some ",") none "r" none =
      Except.ok (PTimeVal.dtv DateTime.epoch,
        testWorld (some ["Path,LastMonitorTime", "/a,2024-01-01 00:00:00",
          "/b,2024-02-02 10:30:00"]) "," (fun _ => true) []) := by
  refine ⟨by decide, ?_⟩
  exact C6_theorem _ "/never-saved" (some ",") none "/store/ref.csv"
    [("/a", "2024-01-01 00:00:00"), ("/b", "2024-02-02 10:30:00")]
    (by decide) (by decide) (by decide) (by decide)

/-! ## Claim C7 -/

theorem map_ite_id (p ts : String) (recs : List (String × String))
    (h : ∀ r ∈ recs, r.1 ≠ p) :
    recs.map (fun r => if r.1 = p then (p, ts) else r) = recs := by
  induction recs with
  | nil => rfl
  | cons r rs ih =>
    simp only [List.map_cons, List.cons.injEq]
    exact ⟨by simp [h r (List.mem_cons_self r rs)],
      ih (fun x hx => h x (List.mem_cons_of_mem r hx))⟩

theorem updateRecs_fst_map (p ts : String) (recs : List (String × String)) :
    (recs.map (fun r => if r.1 = p then (p, ts) else r)).map Prod.fst =
      recs.map Prod.fst := by
  induction recs with
  | nil => rfl
  | cons r rs ih =>
    simp only [List.map_cons, List.cons.injEq]
    exact ⟨by by_cases hp : r.1 = p <;> simp [hp], ih⟩

/-- The path column after a `save`: unchanged when the path was present,
extended by exactly the new path when it was absent. -/
theorem updateRecs_fst (p ts : String) (recs : List (String × String)) :
    (updateRecs p ts recs).map Prod.fst =
      (if recs.any (fun r => r.1 = p) then recs.map Prod.fst
       else recs.map Prod.fst ++ [p]) := by
  unfold updateRecs
  rw [List.map_append, updateRecs_fst_map]
  by_cases ha : recs.any (fun r => r.1 = p) = true <;> simp [ha]

/-- Saving an absent path appends exactly one record and keeps every
pre-existing record byte-identical. -/
theorem updateRecs_absent (p ts : String) (recs : List (String × String))
    (ha : recs.any (fun r => r.1 = p) = false) :
    updateRecs p ts recs = recs ++ [(p, ts)] := by
  have ha' := ha
  rw [List.any_eq_false] at ha'
  unfold updateRecs
  simp only [ha, Bool.false_eq_true, if_false]
  congr 1
  exact map_ite_id p ts recs (fun r hr hrp => absurd (by simp [hrp]) (ha' r hr))

/-- Row count after a `save`: unchanged for a present path, one more for
an absent one. -/
theorem updateRecs_length (p ts : String) (recs : List (String × String)) :
    (updateRecs p ts recs).length =
      recs.length + (if recs.any (fun r => r.1 = p) then 0 else 1) := by
  unfold updateRecs
  by_cases ha : recs.any (fun r => r.1 = p) = true <;> simp [ha]

/-- C7 (confirmed): `save(p, t)` — `_processtime` in write mode — modifies
only the record for `p`.  On a well-formed store: the new content is the
header plus the old records with exactly the rows for `p` updated in place
(`updateRecs`), so when `p` is present the row count and the path column
are unchanged; when `p` is absent exactly one record is appended and every
pre-existing row is preserved verbatim; and no file other than the store
(and the moved-away temporary file) is touched. -/
theorem C7_theorem (w : World) (p : String) (dAttr : Option String)
    (cf : Option String) (refName : String) (recs : List (String × String))
    (hres : resolveRefFile cf w = Except.ok refName)
    (hfile : w.files refName = some ("Path,LastMonitorTime" :: recs.map mkLine))
    (hwf : ∀ r ∈ recs, commaFree r.1 = true ∧ commaFree r.2 = true) :
    ∃ w', processtime w p dAttr cf "w" none =
        Except.ok (PTimeVal.strv w.now.strftime, w') ∧
      w'.files refName = some ("Path,LastMonitorTime" ::
        (updateRecs p w.now.strftime recs).map mkLine) ∧
      (updateRecs p w.now.strftime recs).map Prod.fst =
        (if recs.any (fun r => r.1 = p) then recs.map Prod.fst
         else recs.map Prod.fst ++ [p]) ∧
      (recs.any (fun r => r.1 = p) = false →
        updateRecs p w.now.strftime recs = recs ++ [(p, w.now.strftime)]) ∧
      (updateRecs p w.now.strftime recs).length =
        recs.length + (if recs.any (fun r => r.1 = p) then 0 else 1) ∧
      (∀ q, q ≠ refName → q ≠ tempPathOf w → w'.files q = w.files q) := by
  refine ⟨_, processtime_w_wf w p dAttr cf refName recs hres hfile hwf,
    ?_, updateRecs_fst p w.now.strftime recs,
    updateRecs_absent p w.now.strftime recs,
    updateRecs_length p w.now.strftime recs, ?_⟩
  · simp [saveWorld]
  · intro q hq1 hq2
    simp [saveWorld, hq1, hq2]

/-- Witness for C7: a store holding `/a` and `/b`; saving `/b` updates it
in place; the theorem's hypotheses hold at this store. -/
theorem C7_witness :
    resolveRefFile none
      (testWorld (some ["Path,LastMonitorTime", "/a,2024-01-01 00:00:00",
        "/b,2024-02-02 10:30:00"]) "," (fun _ => true) []) = Except.ok "/store/ref.csv" ∧
    (∃ w', processtime
        (testWorld (some ["Path,LastMonitorTime", "/a,2024-01-01 00:00:00",
          "/b,2024-02-02 10:30:00"]) "," (fun _ => true) [])
        "/b" (some ",") none "w" none =
        Except.ok (PTimeVal.strv (DateTime.strftime ⟨2024, 7, 1, 12, 0, 0, 0⟩), w') ∧
      w'.files "/store/ref.csv" = some ("Path,LastMonitorTime" ::
        (updateRecs "/b" (DateTime.strftime ⟨2024, 7, 1, 12, 0, 0, 0⟩)
          [("/a", "2024-01-01 00:00:00"), ("/b", "2024-02-02 10:30:00")]).map mkLine) ∧
      (updateRecs "/b" (DateTime.strftime ⟨2024, 7, 1, 12, 0, 0, 0⟩)
          [("/a", "2024-01-01 00:00:00"), ("/b", "2024-02-02 10:30:00")]).map Prod.fst =
        (if [("/a", "2024-01-01 00:00:00"), ("/b", "2024-02-02 10:30:00")].any
            (fun r => r.1 = "/b") then
          [("/a", "2024-01-01 00:00:00"), ("/b", "2024-02-02 10:30:00")].map Prod.fst
         else [("/a", "2024-01-01 00:00:00"), ("/b", "2024-02-02 10:30:00")].map Prod.fst
           ++ ["/b"]) ∧
      ([("/a", "2024-01-01 00:00:00"), ("/b", "2024-02-02 10:30:00")].any
          (fun r => r.1 = "/b") = false →
        updateRecs "/b" (DateTime.strftime ⟨2024, 7, 1, 12, 0, 0, 0⟩)
            [("/a", "2024-01-01 00:00:00"), ("/b", "2024-02-02 10:30:00")] =
          [("/a", "2024-01-01 00:00:00"), ("/b", "2024-02-02 10:30:00")] ++
            [("/b", DateTime.strftime ⟨2024, 7, 1, 12, 0, 0, 0⟩)]) ∧
      (updateRecs "/b" (DateTime.strftime ⟨2024, 7, 1, 12, 0, 0, 0⟩)
          [("/a", "2024-01-01 00:00:00"), ("/b", "2024-02-02 10:30:00")]).length =
        [("/a", "2024-01-01 00:00:00"), ("/b", "2024-02-02 10:30:00")].length +
          (if [("/a", "2024-01-01 00:00:00"), ("/b", "2024-02-02 10:30:00")].any
              (fun r => r.1 = "/b") then 0 else 1) ∧
      (∀ q, q ≠ "/store/ref.csv" → q ≠ tempPathOf
          (testWorld (some ["Path,LastMonitorTime", "/a,2024-01-01 00:00:00",
            "/b,2024-02-02 10:30:00"]) "," (fun _ => true) []) →
        w'.files q = (testWorld (some ["Path,LastMonitorTime", "/a,2024-01-01 00:00:00",
          "/b,2024-02-02 10:30:00"]) "," (fun _ => true) []).files q)) := by
  refine ⟨by decide, ?_⟩
  exact C7_theorem _ "/b" (some ",") none "/store/ref.csv"
    [("/a", "2024-01-01 00:00:00"), ("/b", "2024-02-02 10:30:00")]
    (by decide) (by decide) (by decide)

/-! ## Claim C9 -/

/-- C9 (confirmed): whenever `modified_files` returns, the returned list
is exactly the names of the regular files directly under the monitored
path (the directory listing is non-recursive) whose modification time is
strictly greater than `cutoff_time` (`last_review_time`), in the order of
the underlying directory listing. -/
theorem C9_theorem (m : Monitoring) (w : World) (wl : Bool) (files : List String)
    (h : mf_result m w wl = some files) :
    files = ((w.listdir m.path).filter
      (fun e => e.isfile && DateTime.ltb m.last_review_time e.mtime)).map
        DirEntry.name := by
  unfold mf_result Monitoring.modified_files at h
  by_cases hman : m.manual_review = true
  · simp [hman] at h
    rw [← h]
    exact modLoop_eq_filter_map _ _
  · simp only [Bool.not_eq_true] at hman
    cases hpt : processtime w m.path m.ref_delim m.config_file "w" none with
    | error e => simp [hman, hpt] at h
    | ok pr =>
      obtain ⟨tv, w1⟩ := pr
      simp [hman, hpt] at h
      rw [← h]
      exact modLoop_eq_filter_map _ _

/-- Witness for C9, the spec's example scenario 2: `a.txt` modified
2024-01-01 and `b.txt` modified 2024-06-01, manual cutoff 2024-03-01 —
the scan returns exactly `['b.txt']`, a subdirectory entry is skipped. -/
theorem C9_witness :
    mf_result (testMonitor "/watched" ⟨2024, 3, 1, 0, 0, 0, 0⟩ true ",")
      (testWorld (some ["Path,LastMonitorTime"]) "," (fun p => p = "/watched")
        [⟨"a.txt", true, ⟨2024, 1, 1, 0, 0, 0, 0⟩⟩,
         ⟨"sub", false, ⟨2024, 6, 1, 0, 0, 0, 0⟩⟩,
         ⟨"b.txt", true, ⟨2024, 6, 1, 0, 0, 0, 0⟩⟩]) false = some ["b.txt"] ∧
    ["b.txt"] = (((testWorld (some ["Path,LastMonitorTime"]) ","
        (fun p => p = "/watched")
        [⟨"a.txt", true, ⟨2024, 1, 1, 0, 0, 0, 0⟩⟩,
         ⟨"sub", false, ⟨2024, 6, 1, 0, 0, 0, 0⟩⟩,
         ⟨"b.txt", true, ⟨2024, 6, 1, 0, 0, 0, 0⟩⟩]).listdir
        (testMonitor "/watched" ⟨2024, 3, 1, 0, 0, 0, 0⟩ true ",").path).filter
      (fun e => e.isfile && DateTime.ltb
        (testMonitor "/watched" ⟨2024, 3, 1, 0, 0, 0, 0⟩ true ",").last_review_time
        e.mtime)).map DirEntry.name := by
  refine ⟨by decide, ?_⟩
  exact C9_theorem _ _ false _ (by decide)

/-! ## Claim C8 -/

/-- C8 (confirmed): under `manual_override` (`manual_review = true`),
calling `modified_files` twice with no filesystem changes in between
returns identical lists from both calls and leaves the reference store —
indeed the entire file system — untouched: the only world component a
manual-mode scan may change is the audit log. -/
theorem C8_theorem (m : Monitoring) (w : World) (wl : Bool)
    (hman : m.manual_review = true) :
    ∃ w1 w2,
      m.modified_files w wl =
        Except.ok (modLoop m.last_review_time (w.listdir m.path), w1) ∧
      w1.files = w.files ∧
      m.modified_files w1 wl =
        Except.ok (modLoop m.last_review_time (w.listdir m.path), w2) ∧
      w2.files = w.files := by
  set L := modLoop m.last_review_time (w.listdir m.path) with hL
  set w1 := (if wl then L.foldl (fun acc f => m.writelog acc f) w else w) with hw1
  have hpre1 := foldl_writelog_preserve m L w
  have hl1 : w1.listdir = w.listdir := by
    by_cases hwl : wl <;> simp [hw1, hwl, hpre1.2.1]
  have hf1 : w1.files = w.files := by
    by_cases hwl : wl <;> simp [hw1, hwl, hpre1.1]
  have hc1 : m.modified_files w wl = Except.ok (L, w1) := by
    unfold Monitoring.modified_files
    simp [hman, hw1, hL]
  have hL2 : modLoop m.last_review_time (w1.listdir m.path) = L := by
    rw [hl1]
  set w2 := (if wl then L.foldl (fun acc f => m.writelog acc f) w1 else w1) with hw2
  have hpre2 := foldl_writelog_preserve m L w1
  have hc2 : m.modified_files w1 wl = Except.ok (L, w2) := by
    unfold Monitoring.modified_files
    simp [hman, hw2, hL2]
  have hf2 : w2.files = w.files := by
    by_cases hwl : wl <;> simp [hw2, hwl, hpre2.1, hf1]
  exact ⟨w1, w2, hc1, hf1, hc2, hf2⟩

/-- Witness for C8 at a concrete manual-override monitor with the audit
log turned on. -/
theorem C8_witness :
    (testMonitor "/watched" ⟨2024, 3, 1, 0, 0, 0, 0⟩ true ",").manual_review = true ∧
    (∃ w1 w2,
      (testMonitor "/watched" ⟨2024, 3, 1, 0, 0, 0, 0⟩ true ",").modified_files
        (testWorld (some ["Path,LastMonitorTime"]) "," (fun p => p = "/watched")
          [⟨"b.txt", true, ⟨2024, 6, 1, 0, 0, 0, 0⟩⟩]) true =
        Except.ok (modLoop
          (testMonitor "/watched" ⟨2024, 3, 1, 0, 0, 0, 0⟩ true ",").last_review_time
          ((testWorld (some ["Path,LastMonitorTime"]) "," (fun p => p = "/watched")
            [⟨"b.txt", true, ⟨2024, 6, 1, 0, 0, 0, 0⟩⟩]).listdir
            (testMonitor "/watched" ⟨2024, 3, 1, 0, 0, 0, 0⟩ true ",").path), w1) ∧
      w1.files = (testWorld (some ["Path,LastMonitorTime"]) ","
        (fun p => p = "/watched")
        [⟨"b.txt", true, ⟨2024, 6, 1, 0, 0, 0, 0⟩⟩]).files ∧
      (testMonitor "/watched" ⟨2024, 3, 1, 0, 0, 0, 0⟩ true ",").modified_files w1 true =
        Except.ok (modLoop
          (testMonitor "/watched" ⟨2024, 3, 1, 0, 0, 0, 0⟩ true ",").last_review_time
          ((testWorld (some ["Path,LastMonitorTime"]) "," (fun p => p = "/watched")
            [⟨"b.txt", true, ⟨2024, 6, 1, 0, 0, 0, 0⟩⟩]).listdir
            (testMonitor "/watched" ⟨2024, 3, 1, 0, 0, 0, 0⟩ true ",").path), w2) ∧
      w2.files = (testWorld (some ["Path,LastMonitorTime"]) ","
        (fun p => p = "/watched")
        [⟨"b.txt", true, ⟨2024, 6, 1, 0, 0, 0, 0⟩⟩]).files) := by
  refine ⟨by decide, ?_⟩
  exact C8_theorem _ _ true (by decide)

/-! ## Claim C10 -/

/-- C10 (counterexample): the claim says every non-`None` `config_file`
that is not an existing directory fails the line-204 check, so that only
`None` or a directory passes it.  But the check is `if config_file and
not os.path.isdir(config_file)`, and Python's truthiness makes the empty
string falsy: `config_file = ""` is not `None` and not a directory, yet
passes the check (the `FileNotFoundError` it eventually gets comes later,
from inside the configuration lookup, not from this guard). -/
theorem C10_counterexample :
    init_config_guard (some "") (fun _ => false) = false ∧
    (some "" : Option String) ≠ none ∧
    (fun (_ : String) => false) "" = false := by
  exact ⟨by decide, by decide, by decide⟩

/-- C10 (amended): for every *non-empty* `config_file` string that is not
an existing directory, construction raises `FileNotFoundError` at the
line-204 guard, before any configuration key is read (the conclusion holds
for an arbitrary world, in particular for arbitrary configuration
contents); `None`, the empty string, and directory paths pass this guard
(the empty string then fails later, inside the configuration lookup). -/
theorem C10_theorem :
    (∀ (s path : String) (w : World), s ≠ "" → w.isdir s = false →
      init_error path (some s) w = some PyError.fileNotFoundError) ∧
    (∀ isdir : String → Bool, init_config_guard none isdir = false) ∧
    (∀ isdir : String → Bool, init_config_guard (some "") isdir = false) ∧
    (∀ (s : String) (isdir : String → Bool), isdir s = true →
      init_config_guard (some s) isdir = false) := by
  refine ⟨?_, ?_, ?_, ?_⟩
  · intro s path w hs hdir
    have hg : init_config_guard (some s) w.isdir = true := by
      unfold init_config_guard
      simp [hs, hdir]
    unfold init_error monitoringInit monitoringInitPre
    simp [hg]
  · intro isdir
    rfl
  · intro isdir
    unfold init_config_guard
    simp
  · intro s isdir h
    unfold init_config_guard
    simp [h]

/-- Witness for C10 at `config_file = "sub"` over a world with no
directories. -/
theorem C10_witness :
    ("sub" : String) ≠ "" ∧
    (testWorld (some ["Path,LastMonitorTime"]) "," (fun _ => false) []).isdir "sub" =
      false ∧
    init_error "/watched" (some "sub")
      (testWorld (some ["Path,LastMonitorTime"]) "," (fun _ => false) []) =
      some PyError.fileNotFoundError := by
  refine ⟨by decide, by decide, ?_⟩
  exact C10_theorem.1 "sub" "/watched" _ (by decide) (by decide)

/-! ## Claim C2 -/

/-- C2 (counterexample): the claim says a path containing the configured
reference delimiter always fails construction with the validation error
(`RuntimeError` in the code), regardless of whether the path exists.  But
`_validate` checks `os.path.isdir(self.path)` *first*: for the
non-existent path `a|b` under delimiter `|`, construction raises
`FileNotFoundError`, not `RuntimeError`. -/
theorem C2_counterexample :
    strContains "a|b" "|" = true ∧
    get_config "fileproc_referenceDelimiter" none
      (testWorld (some ["Path|LastMonitorTime"]) "|" (fun _ => false) []) =
      Except.ok (some "|") ∧
    init_error "a|b" none
      (testWorld (some ["Path|LastMonitorTime"]) "|" (fun _ => false) []) =
      some PyError.fileNotFoundError ∧
    init_error "a|b" none
      (testWorld (some ["Path|LastMonitorTime"]) "|" (fun _ => false) []) ≠
      some PyError.runtimeError := by
  exact ⟨by decide, by decide, by decide, by decide⟩

/-- C2 (amended): for every path that *is an existing directory* and
contains the configured reference delimiter, whenever construction
reaches validation (the pre-validation part succeeds), it fails with
`RuntimeError` (the code's realisation of the spec's `ValidationError`);
for a non-existent path the `FileNotFoundError` of the existence check
fires first. -/
theorem C2_theorem (path : String) (cf : Option String) (w : World)
    (m : Monitoring) (d : String)
    (hpre : init_pre_view path cf w = some m)
    (hdir : w.isdir path = true)
    (hdelim : m.ref_delim = some d)
    (hcont : strContains path d = true) :
    init_error path cf w = some PyError.runtimeError := by
  unfold init_pre_view at hpre
  cases hip : monitoringInitPre path cf w with
  | error e => simp [hip] at hpre
  | ok pr =>
    obtain ⟨m', w'⟩ := pr
    rw [hip] at hpre
    simp only [Option.some.injEq] at hpre
    subst hpre
    have hp := initPre_preserve path cf w m' w' hip
    unfold init_error monitoringInit
    rw [hip]
    unfold Monitoring.validate
    simp [hp.1, hp.2, hdir, hdelim, hcont]

/-- World fixture for the C2 witness: delimiter `|`, header-only store
(as the code itself would create it), and `/wat|ched` an existing
directory. -/
def C2World : World :=
  testWorld (some ["Path|LastMonitorTime"]) "|" (fun p => p = "/wat|ched") []

/-- Witness for C2 at the existing directory `/wat|ched` under
delimiter `|`. -/
theorem C2_witness :
    init_pre_view "/wat|ched" none C2World =
      some (testMonitor "/wat|ched" DateTime.epoch false "|") ∧
    C2World.isdir "/wat|ched" = true ∧
    (testMonitor "/wat|ched" DateTime.epoch false "|").ref_delim = some "|" ∧
    strContains "/wat|ched" "|" = true ∧
    init_error "/wat|ched" none C2World = some PyError.runtimeError := by
  refine ⟨by decide, by decide, by decide, by decide, ?_⟩
  exact C2_theorem "/wat|ched" none C2World
    (testMonitor "/wat|ched" DateTime.epoch false "|") "|"
    (by decide) (by decide) (by decide) (by decide)

/-! ## Claim C3 -/

/-- C3 (counterexample): the claim says `change_time` fails with the
format error on a malformed timestamp string.  But `_processtime`
*catches* the `strptime` failure and falls through to reading the
reference store: at a store holding `2024-01-01 00:00:00` for the path,
`change_time('garbage')` succeeds, sets the cutoff to the *stored* value
and still flips `manual_review`. -/
theorem C3_counterexample :
    strptime "garbage" = none ∧
    change_time_view (testMonitor "/watched" ⟨2024, 6, 1, 0, 0, 0, 0⟩ false ",")
      (testWorld (some ["Path,LastMonitorTime", "/watched,2024-01-01 00:00:00"]) ","
        (fun p => p = "/watched") []) "garbage" =
      some (⟨2024, 1, 1, 0, 0, 0, 0⟩, true) := by
  exact ⟨by decide, by decide⟩

/-- C3 (amended): on a well-formed timestamp string, `change_time` sets
`cutoff_time` to the parsed timestamp and `manual_override` to true
without touching the store; on a malformed string it does *not* fail —
the parse error is caught and the cutoff falls back to a store read
(shown here for a store without a record for the path: the epoch), and
`manual_override` is still set to true. -/
theorem C3_theorem (m : Monitoring) (w : World) (s : String) :
    (∀ t, strptime s = some t →
      m.change_time w s =
        Except.ok ({ m with last_review_time := t, manual_review := true }, w)) ∧
    (∀ (refName : String) (recs : List (String × String)), strptime s = none →
      resolveRefFile m.config_file w = Except.ok refName →
      w.files refName = some ("Path,LastMonitorTime" :: recs.map mkLine) →
      (∀ r ∈ recs, commaFree r.1 = true) →
      (∀ r ∈ recs, r.1 ≠ m.path) →
      m.change_time w s =
        Except.ok ({ m with last_review_time := DateTime.epoch, manual_review := true }, w)) := by
  constructor
  · intro t ht
    unfold Monitoring.change_time processtime
    rw [if_neg (by simp)]
    simp [ht]
  · intro refName recs hs hres hfile h1 h2
    unfold Monitoring.change_time
    rw [processtime_r_nomatch w m.path m.ref_delim m.config_file refName recs
      (some s) (by simp [hs]) hres hfile h1 h2]

/-- Monitor fixture for the C3 witness. -/
def C3Monitor : Monitoring := testMonitor "/watched" ⟨2024, 6, 1, 0, 0, 0, 0⟩ false ","

/-- World fixture for the valid-string half of the C3 witness. -/
def C3WorldA : World :=
  testWorld (some ["Path,LastMonitorTime"]) "," (fun p => p = "/watched") []

/-- World fixture for the malformed-string half of the C3 witness: the
store has a record only for a different path. -/
def C3WorldB : World :=
  testWorld (some ["Path,LastMonitorTime", "/other,2024-01-01 00:00:00"]) ","
    (fun p => p = "/watched") []

/-- Witness for C3: a parseable string sets the parsed cutoff; `garbage`
on a record-free store silently yields the epoch; both flip the flag. -/
theorem C3_witness :
    strptime "2024-03-01 00:00:00" = some ⟨2024, 3, 1, 0, 0, 0, 0⟩ ∧
    C3Monitor.change_time C3WorldA "2024-03-01 00:00:00" =
      Except.ok ({ C3Monitor with last_review_time := ⟨2024, 3, 1, 0, 0, 0, 0⟩, manual_review := true },
        C3WorldA) ∧
    strptime "garbage" = none ∧
    C3Monitor.change_time C3WorldB "garbage" =
      Except.ok ({ C3Monitor with last_review_time := DateTime.epoch, manual_review := true },
        C3WorldB) := by
  refine ⟨by decide, ?_, by decide, ?_⟩
  · exact (C3_theorem C3Monitor C3WorldA "2024-03-01 00:00:00").1
      ⟨2024, 3, 1, 0, 0, 0, 0⟩ (by decide)
  · exact (C3_theorem C3Monitor C3WorldB "garbage").2 "/store/ref.csv"
      [("/other", "2024-01-01 00:00:00")] (by decide) (by decide) (by decide)
      (by decide) (by decide)

/-! ## Claim C4 -/

/-- World fixture for C4: header-only store at `/store/ref.csv`, system
temp directory `/tmp`. -/
def C4World : World := testWorld (some ["Path,LastMonitorTime"]) "," (fun _ => true) []

/-- C4 (counterexample): the claim says the temporary file of every
`save` lives in the same directory as the store file.  But the code uses
`tempfile.NamedTemporaryFile(delete=False)`, which creates it in the
*system temporary directory*: for a store at `/store/ref.csv` and temp
directory `/tmp`, a successful save uses a temp file whose directory is
`/tmp`, not `/store`. -/
theorem C4_counterexample :
    resolveRefFile none C4World = Except.ok "/store/ref.csv" ∧
    (match processtime C4World "/watched" (some ",") none "w" none with
     | Except.ok (PTimeVal.strv _, _) => true
     | _ => false) = true ∧
    dirname (tempPathOf C4World) = "/tmp" ∧
    dirname "/store/ref.csv" = "/store" ∧
    dirname (tempPathOf C4World) ≠ dirname "/store/ref.csv" := by
  exact ⟨by decide, by decide, by decide, by decide, by decide⟩

/-- C4 (amended): `save` writes the fully rewritten store into a freshly
created temporary file in the *system temporary directory* (not
necessarily the store's directory) and then moves it over the store file:
after a completed save the store holds exactly the complete rewritten
content and the temporary file is gone.  (The move is an atomic rename
only when the temp directory and the store share a filesystem; crash
behaviour is outside this model.) -/
theorem C4_theorem (w : World) (p : String) (dAttr : Option String)
    (cf : Option String) (refName : String) (recs : List (String × String))
    (hres : resolveRefFile cf w = Except.ok refName)
    (hfile : w.files refName = some ("Path,LastMonitorTime" :: recs.map mkLine))
    (hwf : ∀ r ∈ recs, commaFree r.1 = true ∧ commaFree r.2 = true)
    (htn : hasSlash w.tempName.data = false) :
    dirname (tempPathOf w) = w.sysTempDir ∧
    ∃ w', processtime w p dAttr cf "w" none =
        Except.ok (PTimeVal.strv w.now.strftime, w') ∧
      w'.files refName = some ("Path,LastMonitorTime" ::
        (updateRecs p w.now.strftime recs).map mkLine) ∧
      (tempPathOf w ≠ refName → w'.files (tempPathOf w) = none) := by
  refine ⟨dirname_append w.sysTempDir w.tempName htn,
    _, processtime_w_wf w p dAttr cf refName recs hres hfile hwf, by simp [saveWorld], ?_⟩
  intro hne
  simp [saveWorld, hne]

/-- Witness for C4 at the concrete store `/store/ref.csv` and temp
directory `/tmp`. -/
theorem C4_witness :
    resolveRefFile none C4World = Except.ok "/store/ref.csv" ∧
    hasSlash C4World.tempName.data = false ∧
    (dirname (tempPathOf C4World) = C4World.sysTempDir ∧
    ∃ w', processtime C4World "/watched" (some ",") none "w" none =
        Except.ok (PTimeVal.strv C4World.now.strftime, w') ∧
      w'.files "/store/ref.csv" = some ("Path,LastMonitorTime" ::
        (updateRecs "/watched" C4World.now.strftime []).map mkLine) ∧
      (tempPathOf C4World ≠ "/store/ref.csv" →
        w'.files (tempPathOf C4World) = none)) := by
  refine ⟨by decide, by decide, ?_⟩
  exact C4_theorem C4World "/watched" (some ",") none "/store/ref.csv" []
    (by decide) (by decide) (by decide) (by decide)

/-! ## Claim C1 -/

/-- World fixture for C1: automatic mode, store cutoff 2024-01-01 for
`/watched`, one file modified 2024-06-01, scan clock 2024-07-01 12:00. -/
def C1World : World :=
  testWorld (some ["Path,LastMonitorTime", "/watched,2024-01-01 00:00:00"]) ","
    (fun p => p = "/watched") [⟨"a.txt", true, ⟨2024, 6, 1, 0, 0, 0, 0⟩⟩]

/-- Monitor fixture for C1 (as `__init__` would build it over `C1World`). -/
def C1Monitor : Monitoring := testMonitor "/watched" ⟨2024, 1, 1, 0, 0, 0, 0⟩ false ","

/-- C1 (counterexample): the claim says an automatic-mode
`modified_files` advances the Monitor's `cutoff_time`, so an immediate
second call on the same instance returns an empty list.  But
`modified_files` discards the value returned by
`_processtime(readwrite='w')` and never assigns `self.last_review_time`:
with one file modified after the cutoff, both back-to-back calls return
`['a.txt']` — the second is *not* empty — even though the persisted store
record has been advanced to the scan time by each call. -/
theorem C1_counterexample :
    C1Monitor.manual_review = false ∧
    mf_twice_results C1Monitor C1World false = some (["a.txt"], ["a.txt"]) ∧
    mf_twice_storeFile C1Monitor C1World false "/store/ref.csv" =
      some (some ["Path,LastMonitorTime", "/watched,2024-07-01 12:00:00"],
            some ["Path,LastMonitorTime", "/watched,2024-07-01 12:00:00"]) ∧
    (["a.txt"] : List String) ≠ [] := by
  exact ⟨by decide, by decide, by decide, by decide⟩

/-- C1 (amended): in automatic mode each call to `modified_files`
advances the *store's* record for the path to the scan's completion time
(`updateRecs` with the formatted clock), but the instance's in-memory
`cutoff_time` (`last_review_time`) is left unchanged — the write branch's
return value is discarded.  Hence an immediate second call on the same
instance scans with the same cutoff and returns the *same* list as the
first call, not an empty one; only a new Monitor constructed afterwards
(loading the advanced cutoff from the store) would see an empty list. -/
theorem C1_theorem (m : Monitoring) (w : World) (wl : Bool) (refName : String)
    (recs : List (String × String))
    (hman : m.manual_review = false)
    (hres : resolveRefFile m.config_file w = Except.ok refName)
    (hfile : w.files refName = some ("Path,LastMonitorTime" :: recs.map mkLine))
    (hwf : ∀ r ∈ recs, commaFree r.1 = true ∧ commaFree r.2 = true)
    (hp : commaFree m.path = true)
    (htmp : w.files (tempPathOf w) = none) :
    ∃ w1 w2,
      m.modified_files w wl =
        Except.ok (modLoop m.last_review_time (w.listdir m.path), w1) ∧
      w1.files refName = some ("Path,LastMonitorTime" ::
        (updateRecs m.path w.now.strftime recs).map mkLine) ∧
      m.modified_files w1 wl =
        Except.ok (modLoop m.last_review_time (w.listdir m.path), w2) := by
  have hts : commaFree w.now.strftime = true := strftime_commaFree w.now
  have hsave1 := processtime_w_wf w m.path m.ref_delim m.config_file refName recs
    hres hfile hwf
  set ws1 : World := saveWorld w refName ("Path,LastMonitorTime" ::
    (updateRecs m.path w.now.strftime recs).map mkLine) with hws1
  set L := modLoop m.last_review_time (w.listdir m.path) with hL
  set w1 := (if wl then L.foldl (fun acc f => m.writelog acc f) ws1 else ws1) with hw1
  have hpre1 := foldl_writelog_preserve m L ws1
  have hc1 : m.modified_files w wl = Except.ok (L, w1) := by
    unfold Monitoring.modified_files
    simp [hman, hsave1, hw1, hL]
  have h1files : w1.files = ws1.files := by
    by_cases hwl : wl <;> simp [hw1, hwl, hpre1.1]
  have h1listdir : w1.listdir = w.listdir := by
    have e : w1.listdir = ws1.listdir := by
      by_cases hwl : wl <;> simp [hw1, hwl, hpre1.2.1]
    rw [e, hws1]
    exact rfl
  have h1env : w1.envConfigFile = w.envConfigFile := by
    have e : w1.envConfigFile = ws1.envConfigFile := by
      by_cases hwl : wl <;> simp [hw1, hwl, hpre1.2.2.1]
    rw [e, hws1]
    exact rfl
  have h1cd : w1.configData = w.configData := by
    have e : w1.configData = ws1.configData := by
      by_cases hwl : wl <;> simp [hw1, hwl, hpre1.2.2.2.1]
    rw [e, hws1]
    exact rfl
  have h1now : w1.now = w.now := by
    have e : w1.now = ws1.now := by
      by_cases hwl : wl <;> simp [hw1, hwl, hpre1.2.2.2.2.1]
    rw [e, hws1]
    exact rfl
  have hres2 : resolveRefFile m.config_file w1 = Except.ok refName := by
    apply resolveRefFile_preserved m.config_file w w1 refName hres h1env h1cd
    intro q hq
    simp only [h1files, hws1, saveWorld]
    by_cases hq1 : q = refName
    · simp [hq1]
    · by_cases hq2 : q = tempPathOf w
      · rw [hq2, htmp] at hq
        simp at hq
      · simp only [hq1, if_false, hq2]
        simpa using hq
  have hfile2 : w1.files refName = some ("Path,LastMonitorTime" ::
      (updateRecs m.path w.now.strftime recs).map mkLine) := by
    simp only [h1files, hws1, saveWorld]
    simp
  have hwf2 := updateRecs_wf m.path w.now.strftime recs hp hts hwf
  have hsave2 := processtime_w_wf w1 m.path m.ref_delim m.config_file refName
    (updateRecs m.path w.now.strftime recs) hres2 hfile2 hwf2
  rw [h1now] at hsave2
  have hL2 : modLoop m.last_review_time (w1.listdir m.path) = L := by
    rw [h1listdir]
  set ws2 : World := saveWorld w1 refName ("Path,LastMonitorTime" ::
    (updateRecs m.path w.now.strftime
      (updateRecs m.path w.now.strftime recs)).map mkLine) with hws2
  set w2 := (if wl then L.foldl (fun acc f => m.writelog acc f) ws2 else ws2) with hw2
  have hc2 : m.modified_files w1 wl = Except.ok (L, w2) := by
    unfold Monitoring.modified_files
    simp [hman, hsave2, hL2, hw2]
  exact ⟨w1, w2, hc1, hfile2, hc2⟩

/-- Witness for C1 at the concrete automatic-mode fixture: the store
record advances to `2024-07-01 12:00:00` while both calls return the same
scan result. -/
theorem C1_witness :
    C1Monitor.manual_review = false ∧
    resolveRefFile C1Monitor.config_file C1World = Except.ok "/store/ref.csv" ∧
    C1World.files "/store/ref.csv" = some ("Path,LastMonitorTime" ::
      [("/watched", "2024-01-01 00:00:00")].map mkLine) ∧
    commaFree C1Monitor.path = true ∧
    C1World.files (tempPathOf C1World) = none ∧
    (∃ w1 w2,
      C1Monitor.modified_files C1World false =
        Except.ok (modLoop C1Monitor.last_review_time
          (C1World.listdir C1Monitor.path), w1) ∧
      w1.files "/store/ref.csv" = some ("Path,LastMonitorTime" ::
        (updateRecs C1Monitor.path C1World.now.strftime
          [("/watched", "2024-01-01 00:00:00")]).map mkLine) ∧
      C1Monitor.modified_files w1 false =
        Except.ok (modLoop C1Monitor.last_review_time
          (C1World.listdir C1Monitor.path), w2)) := by
  refine ⟨by decide, by decide, by decide, by decide, by decide, ?_⟩
  exact C1_theorem C1Monitor C1World false "/store/ref.csv"
    [("/watched", "2024-01-01 00:00:00")] (by decide) (by decide) (by decide)
    (by decide) (by decide) (by decide)
